import Mathlib

/-
Verification of the hardware identification enumeration engine of ggg-cpuid.

The embedding follows src/ia32/ggg-cpuid.c (the CPUID enumerator) and
src/arm/ggg-driver.c (the register-read surface).  Machine integers are
modelled as Nat with explicit `% 2^32` where the C code can wrap.  The
query primitive `do_cpuid` is an external collaborator, so every function
takes a scripted primitive `q : Nat -> Nat -> cpuid_result` as a parameter.
Loops whose C termination is data-dependent take an explicit fuel argument.

Key points of the C source that the embedding reproduces exactly:
- `cpuid_leaf` (line 62): the for-loop header is
  `for (uint32_t subleaf = 0; subleaf > -1; ++subleaf)`.  Under the usual
  arithmetic conversions the signed literal -1 is converted to the unsigned
  value 0xFFFFFFFF, so the controlling expression is `subleaf > 0xFFFFFFFF`.
- `cpuid_level` (line 115): the loop counter `int leaf` is compared against
  the unsigned `max_leaf`, so the comparison and the call convert `leaf`
  back to uint32_t; the increment is modelled as wraparound modulo 2^32
  (two's complement behaviour of the generated code).
- `device_read` (line 89): `length` has the unsigned type size_t, so the
  guard `length < 0` compares two unsigned values.
-/

/-- The four 32-bit output words of one CPUID query
(struct `cpuid_result_t` in ggg-cpuid.c). -/
structure cpuid_result where
  eax : Nat
  ebx : Nat
  ecx : Nat
  edx : Nat
deriving DecidableEq

/-- One printed report row, as produced by `print_subleaf`:
a leaf, a subleaf and the four result words. -/
structure CpuidRow where
  leaf : Nat
  subleaf : Nat
  r : cpuid_result
deriving DecidableEq

/-- Observable trace of one run: the rows printed by `print_subleaf`,
the `do_cpuid` queries issued (leaf, subleaf), and the leaves on which
`cpuid_leaf` (the Leaf Enumerator) was invoked. -/
structure RunTrace where
  rows : List CpuidRow
  queries : List (Nat × Nat)
  calls : List Nat
deriving DecidableEq

/-- 2^32, the modulus of the uint32_t arithmetic in the source. -/
def MOD32 : Nat := 4294967296

/-- The value the signed literal `-1` takes after conversion to uint32_t. -/
def UINT32_MAX : Nat := 4294967295

/-- The leaf-family stop conditions: the switch statement inside
`cpuid_leaf`'s loop body.  `true` means the corresponding `return` is
taken (the current subleaf's row is discarded and enumeration stops).

- case 0x7:  `if (subleaf > r.eax) return;`
- case 0xb:  `if ((r.eax || r.ebx || (r.ecx & ~0xff)) == 0) return;`
  (`~0xff` as a 32-bit mask is 0xFFFFFF00)
- case 0x14: `if (subleaf > r.eax) return;`
- case 0x1f: `if ((r.ecx & 0xff00U) == 0) return;`
- default:   `if ((r.eax || r.ebx || r.ecx || r.edx) == 0) return;`
             `if (!memcmp(&last_subleaf, &r, sizeof(last_subleaf))) return;`
  (memcmp equality of the four-word struct is field-wise equality). -/
def leaf_stop (leaf subleaf : Nat) (r last_subleaf : cpuid_result) : Bool :=
  if leaf = 0x7 then decide (subleaf > r.eax)
  else if leaf = 0xb then
    decide (r.eax = 0 ∧ r.ebx = 0 ∧ r.ecx &&& 0xffffff00 = 0)
  else if leaf = 0x14 then decide (subleaf > r.eax)
  else if leaf = 0x1f then decide (r.ecx &&& 0xff00 = 0)
  else
    decide ((r.eax = 0 ∧ r.ebx = 0 ∧ r.ecx = 0 ∧ r.edx = 0) ∨ r = last_subleaf)

/-- The for-loop of `cpuid_leaf`, made explicit.  The controlling
expression `subleaf > -1` compares uint32_t against int, so `-1` is
converted to `UINT32_MAX`; the loop runs only while
`subleaf > UINT32_MAX`.  Fuel bounds the number of iterations modelled.
Returns the rows printed and the queries issued, in order. -/
def cpuid_leaf_loop (q : Nat → Nat → cpuid_result) (leaf : Nat) :
    cpuid_result → Nat → Nat → List CpuidRow × List (Nat × Nat)
  | _, _, 0 => ([], [])
  | last_subleaf, subleaf, fuel + 1 =>
    if subleaf > UINT32_MAX then
      let r := q leaf subleaf
      if leaf_stop leaf subleaf r last_subleaf then
        ([], [(leaf, subleaf)])
      else
        let rest := cpuid_leaf_loop q leaf r ((subleaf + 1) % MOD32) fuel
        (⟨leaf, subleaf, r⟩ :: rest.1, (leaf, subleaf) :: rest.2)
    else ([], [])

/-- `cpuid_leaf`: enumerate the subleaves of one leaf.
`last_subleaf` starts as the zero-initialised struct `{0}` and
`subleaf` starts at 0. -/
def cpuid_leaf (q : Nat → Nat → cpuid_result) (leaf fuel : Nat) :
    List CpuidRow × List (Nat × Nat) :=
  cpuid_leaf_loop q leaf ⟨0, 0, 0, 0⟩ 0 fuel

/-- The for-loop of `cpuid_level`: `for (int leaf = level; leaf <= max_leaf;
++leaf) cpuid_leaf(leaf);`.  `u` is the uint32_t view of the int counter
(the comparison with the unsigned `max_leaf` and the call argument both
convert it back to uint32_t); the increment wraps modulo 2^32. -/
def cpuid_level_loop (q : Nat → Nat → cpuid_result) (max_leaf lfuel : Nat) :
    Nat → Nat → RunTrace
  | _, 0 => ⟨[], [], []⟩
  | u, fuel + 1 =>
    if u ≤ max_leaf then
      let t := cpuid_leaf q u lfuel
      let rest := cpuid_level_loop q max_leaf lfuel ((u + 1) % MOD32) fuel
      ⟨t.1 ++ rest.rows, t.2 ++ rest.queries, u :: rest.calls⟩
    else ⟨[], [], []⟩

/-- `cpuid_level`: query `(level, 0)` once, read `max_leaf = r.eax`, then
iterate leaves from `level` while the counter's unsigned view stays
at most `max_leaf`. -/
def cpuid_level (q : Nat → Nat → cpuid_result) (level fuel lfuel : Nat) :
    RunTrace :=
  let r := q level 0
  let t := cpuid_level_loop q r.eax lfuel (level % MOD32) fuel
  ⟨t.rows, (level, 0) :: t.queries, t.calls⟩

/-- `dump_cpuid`: `cpuid_level(0); cpuid_level(0x80000000);`. -/
def dump_cpuid (q : Nat → Nat → cpuid_result) (fuel lfuel : Nat) : RunTrace :=
  let a := cpuid_level q 0 fuel lfuel
  let b := cpuid_level q 0x80000000 fuel lfuel
  ⟨a.rows ++ b.rows, a.queries ++ b.queries, a.calls ++ b.calls⟩

/-- The selector dispatch at the end of `main` (lines 202-211), with the
sentinel initialisation `uint32_t leaf = 0xffffffff, subleaf = 0xffffffff`
from line 142: a flag that was given replaces the sentinel with the parsed
value, so "set" is observable to this dispatch only as `!= 0xffffffff`.

```
if (leaf != 0xffffffff) {
    if (subleaf != 0xffffffff) {
        cpuid_result r = do_cpuid(leaf, subleaf);
        print_subleaf(leaf, subleaf, r);
    } else {
        cpuid_leaf(leaf);
    }
} else {
    dump_cpuid();
}
``` -/
def resolver (q : Nat → Nat → cpuid_result) (leaf subleaf fuel lfuel : Nat) :
    RunTrace :=
  if leaf ≠ 0xffffffff then
    if subleaf ≠ 0xffffffff then
      ⟨[⟨leaf, subleaf, q leaf subleaf⟩], [(leaf, subleaf)], []⟩
    else
      let t := cpuid_leaf q leaf lfuel
      ⟨t.1, t.2, [leaf]⟩
  else
    dump_cpuid q fuel lfuel

/-- The non-guard part of `device_read` in ggg-driver.c: `count = length/4`,
then the fallthrough switch writes one word for each of the
`min count 18` registers at byte offsets `(min count 18 - 1)*4` down
to 0, and `case 0:` returns `count * 4`.  The user-memory copy itself
(`put_user` faults) is OS plumbing outside the modelled core; the pair
returned is (return value, list of byte offsets written, in write order). -/
def device_read_body (length : Nat) : Nat × List Nat :=
  (length / 4 * 4,
   ((List.range (min (length / 4) 18)).reverse).map fun k => k * 4)

/-- `device_read`: the guard `if (length < 0) return 0;` followed by the
switch.  `length` has the unsigned type size_t, so the guard compares two
unsigned values. -/
def device_read (length : Nat) : Nat × List Nat :=
  if length < 0 then (0, [])
  else device_read_body length

/-- Scripted primitive returning all-zero words everywhere. -/
def qZero : Nat → Nat → cpuid_result := fun _ _ => ⟨0, 0, 0, 0⟩

/-- Scripted primitive reporting max leaf 3 everywhere. -/
def qThree : Nat → Nat → cpuid_result := fun _ _ => ⟨3, 0, 0, 0⟩

/-- Script for the leaf-7 scenario: subleaf 0 reports word0 = 2
(three valid subleaves); subleaves 0, 1, 2 return nonzero
distinguishable data. -/
def script_leaf7 : Nat → Nat → cpuid_result := fun _ subleaf =>
  if subleaf = 0 then ⟨2, 17, 34, 51⟩
  else if subleaf = 1 then ⟨2, 68, 85, 102⟩
  else if subleaf = 2 then ⟨2, 119, 136, 153⟩
  else ⟨2, 170, 187, 204⟩

/-- Script for the default rule: subleaf 0 is nonzero, subleaf 1 is
all-zero (the first stop observation is at subleaf 1). -/
def script_default_zero : Nat → Nat → cpuid_result := fun _ subleaf =>
  if subleaf = 0 then ⟨1, 2, 3, 4⟩ else ⟨0, 0, 0, 0⟩

/-- Script for the leaf-0xB scenario: subleaf 0 has level type 0x01
(word2 = 0x100), subleaf 1 has level type 0x02 (word2 = 0x201), subleaf 2
has word0 = word1 = 0 and word2 with bits 8-31 zero (invalid level). -/
def script_topology : Nat → Nat → cpuid_result := fun _ subleaf =>
  if subleaf = 0 then ⟨0, 0, 0x100, 7⟩
  else if subleaf = 1 then ⟨0, 0, 0x201, 7⟩
  else ⟨0, 0, 2, 7⟩

/-- Script for leaf 0x1F: subleaf 0 has a nonzero domain type
(word2 bits 8-15 = 0x01), subleaf 1 has domain type zero. -/
def script_v2_topology : Nat → Nat → cpuid_result := fun _ subleaf =>
  if subleaf = 0 then ⟨1, 2, 0x100, 4⟩ else ⟨0, 0, 0, 0⟩

/-- Script on which no stop condition of any leaf family ever holds:
every subleaf returns distinct, nonzero data with word0 growing. -/
def script_never : Nat → Nat → cpuid_result := fun _ subleaf =>
  ⟨subleaf + 1, 1, 2, 3⟩

/-- Script whose every result reports word0 = 0xFFFFFFFF. -/
def script_ff : Nat → Nat → cpuid_result := fun _ _ =>
  ⟨4294967295, 0, 0, 0⟩

/-- The subleaf loop of `cpuid_leaf` exits before its first iteration:
its controlling expression `subleaf > -1` is `subleaf > 0xFFFFFFFF` after
the unsigned conversion, which is false at the initial `subleaf = 0`.
So `cpuid_leaf` prints nothing and issues no queries, for every scripted
primitive, every leaf and every fuel. -/
theorem cpuid_leaf_no_output (q : Nat → Nat → cpuid_result)
    (leaf fuel : Nat) : cpuid_leaf q leaf fuel = ([], []) := by
  cases fuel with
  | zero => rfl
  | succ n => rfl

/-- The leaf loop inside `cpuid_level` contributes no rows and no queries,
because every `cpuid_leaf` call returns an empty trace. -/
theorem cpuid_level_loop_silent (q : Nat → Nat → cpuid_result)
    (max_leaf lfuel : Nat) :
    ∀ (fuel u : Nat),
      (cpuid_level_loop q max_leaf lfuel u fuel).rows = []
      ∧ (cpuid_level_loop q max_leaf lfuel u fuel).queries = [] := by
  intro fuel
  induction fuel with
  | zero => intro u; exact ⟨rfl, rfl⟩
  | succ n ih =>
    intro u
    by_cases h : u ≤ max_leaf
    · simp [cpuid_level_loop, h, cpuid_leaf_no_output, ih ((u + 1) % MOD32)]
    · simp [cpuid_level_loop, h]

/-- Unfolding lemma: the Leaf Enumerator invocations of `cpuid_level`
are those of its leaf loop, started at the uint32_t view of `level` with
the bound read from the base query. -/
theorem cpuid_level_calls_def (q : Nat → Nat → cpuid_result)
    (level fuel lfuel : Nat) :
    (cpuid_level q level fuel lfuel).calls
      = (cpuid_level_loop q (q level 0).eax lfuel (level % MOD32) fuel).calls :=
  rfl

/-- `cpuid_level` issues exactly one query, `(level, 0)`. -/
theorem cpuid_level_queries (q : Nat → Nat → cpuid_result)
    (level fuel lfuel : Nat) :
    (cpuid_level q level fuel lfuel).queries = [(level, 0)] := by
  have h := cpuid_level_loop_silent q (q level 0).eax lfuel fuel (level % MOD32)
  simp [cpuid_level, h.2]

/-- `cpuid_level` prints no rows (its leaf scans all print nothing). -/
theorem cpuid_level_rows (q : Nat → Nat → cpuid_result)
    (level fuel lfuel : Nat) :
    (cpuid_level q level fuel lfuel).rows = [] := by
  have h := cpuid_level_loop_silent q (q level 0).eax lfuel fuel (level % MOD32)
  simp [cpuid_level, h.1]

/-- With `max_leaf < 2^32 - 1` and enough fuel, the leaf loop of
`cpuid_level` visits exactly the leaves `u, u+1, ..., max_leaf`
(none at all when `max_leaf < u`). -/
theorem cpuid_level_loop_calls (q : Nat → Nat → cpuid_result)
    (max_leaf lfuel : Nat) (hm : max_leaf < MOD32 - 1) :
    ∀ (fuel u : Nat), u < MOD32 → max_leaf + 2 - u ≤ fuel →
      (cpuid_level_loop q max_leaf lfuel u fuel).calls
        = List.range' u (max_leaf + 1 - u) := by
  have hM : MOD32 = 4294967296 := rfl
  intro fuel
  induction fuel with
  | zero =>
    intro u hu hf
    have hlen : max_leaf + 1 - u = 0 := by omega
    simp [cpuid_level_loop, hlen]
  | succ n ih =>
    intro u hu hf
    by_cases h : u ≤ max_leaf
    · have hu1 : (u + 1) % MOD32 = u + 1 := Nat.mod_eq_of_lt (by omega)
      have hrec := ih ((u + 1) % MOD32) (by rw [hu1]; omega) (by rw [hu1]; omega)
      rw [hu1] at hrec
      have hlen : max_leaf + 1 - u = (max_leaf + 1 - (u + 1)) + 1 := by omega
      simp only [cpuid_level_loop, h, if_pos]
      rw [hu1, hrec, hlen, List.range'_succ]
    · have hlen : max_leaf + 1 - u = 0 := by omega
      simp [cpuid_level_loop, h, hlen]

/-- When every possible counter value passes the bound check (that is,
`max_leaf = 2^32 - 1`), the wrapping counter makes the leaf loop cycle:
within the fuel window, the k-th visited leaf is `(u + k) % 2^32`. -/
theorem cpuid_level_loop_calls_wrap (q : Nat → Nat → cpuid_result)
    (lfuel : Nat) :
    ∀ (fuel k u : Nat), k < fuel → u < MOD32 →
      ((u + k) % MOD32)
        ∈ (cpuid_level_loop q (MOD32 - 1) lfuel u fuel).calls := by
  have hM : MOD32 = 4294967296 := rfl
  intro fuel
  induction fuel with
  | zero => intro k u hk _; exact absurd hk (Nat.not_lt_zero k)
  | succ n ih =>
    intro k u hk hu
    have h : u ≤ MOD32 - 1 := by omega
    cases k with
    | zero =>
      simp [cpuid_level_loop, h, Nat.mod_eq_of_lt hu]
    | succ j =>
      have hrec := ih j ((u + 1) % MOD32) (by omega)
        (Nat.mod_lt _ (by omega))
      have heq : ((u + 1) % MOD32 + j) % MOD32 = (u + (j + 1)) % MOD32 := by
        rw [Nat.mod_add_mod, Nat.add_assoc, Nat.add_comm 1 j]
      rw [heq] at hrec
      simp only [cpuid_level_loop, h, if_pos]
      exact List.mem_cons_of_mem _ hrec

/-- Claim C1: enumeration of leaf 0x7 was claimed to stop at the first
subleaf s with s > word0 and, on the scenario script (word0 = 2 at
subleaf 0, nonzero distinguishable data at subleaves 0..2), to emit
exactly 3 rows.  On the code, the stop condition at subleaf 0 indeed says
"continue" (0 > 2 is false), yet `cpuid_leaf` emits no rows and issues no
queries at all: its loop guard `subleaf > -1` is always false for the
unsigned counter. -/
theorem claim_C1_leaf7_dead_loop :
    leaf_stop 0x7 0 (script_leaf7 0x7 0) ⟨0, 0, 0, 0⟩ = false
    ∧ (script_leaf7 0x7 0).eax = 2
    ∧ cpuid_leaf script_leaf7 0x7 100 = ([], []) :=
  ⟨rfl, rfl, rfl⟩

/-- Claim C2: under the default rule, with subleaf 0 nonzero and subleaf 1
all-zero, the claim expects exactly the row for subleaf 0.  On the code,
the default stop condition at subleaf 0 says "continue" (the result is
neither all-zero nor equal to the zero-initialised previous result), yet
`cpuid_leaf` emits no rows and issues no queries: the loop guard
`subleaf > -1` is always false for the unsigned counter. -/
theorem claim_C2_default_dead_loop :
    leaf_stop 0x2 0 (script_default_zero 0x2 0) ⟨0, 0, 0, 0⟩ = false
    ∧ script_default_zero 0x2 1 = ⟨0, 0, 0, 0⟩
    ∧ cpuid_leaf script_default_zero 0x2 100 = ([], []) :=
  ⟨rfl, rfl, rfl⟩

/-- Claim C5: for leaf 0xB on the scenario script (valid level types at
subleaves 0 and 1, invalid at subleaf 2) the claim expects exactly 2 rows.
On the code, the leaf-0xB stop condition says "continue" at subleaf 0 and
"stop" at subleaf 2, as the claim describes, yet `cpuid_leaf` emits no
rows and issues no queries: the loop guard `subleaf > -1` is always false
for the unsigned counter. -/
theorem claim_C5_topology_dead_loop :
    leaf_stop 0xb 0 (script_topology 0xb 0) ⟨0, 0, 0, 0⟩ = false
    ∧ leaf_stop 0xb 2 (script_topology 0xb 2) (script_topology 0xb 1) = true
    ∧ cpuid_leaf script_topology 0xb 100 = ([], []) :=
  ⟨rfl, rfl, rfl⟩

/-- Claim C6: for leaf 0x1F on a script whose subleaf 0 has a nonzero
domain type and whose subleaf 1 has domain type zero, the claim expects
exactly the row for subleaf 0.  On the code, the leaf-0x1F stop condition
says "continue" at subleaf 0 and "stop" at subleaf 1, as the claim
describes, yet `cpuid_leaf` emits no rows and issues no queries: the loop
guard `subleaf > -1` is always false for the unsigned counter. -/
theorem claim_C6_v2_dead_loop :
    leaf_stop 0x1f 0 (script_v2_topology 0x1f 0) ⟨0, 0, 0, 0⟩ = false
    ∧ leaf_stop 0x1f 1 (script_v2_topology 0x1f 1) (script_v2_topology 0x1f 0)
        = true
    ∧ cpuid_leaf script_v2_topology 0x1f 100 = ([], []) :=
  ⟨rfl, rfl, rfl⟩

/-- Claim C4, counterexample to the claim as stated: on a script on which
no stop condition of the default family ever holds (checked here for the
first 50 subleaves, against both the zero-initialised previous result and
the actual previous result), the claim says iteration runs into a safety
cap whose excess is reported as an internal-limit-exceeded condition.
The code instead performs zero iterations (the loop guard is always
false) and produces no output of any kind - no rows, no queries and no
diagnostic. -/
theorem claim_C4_counterexample :
    ((List.range 50).all fun s =>
        !(leaf_stop 0x5 s (script_never 0x5 s)
            (if s = 0 then ⟨0, 0, 0, 0⟩ else script_never 0x5 (s - 1))))
      = true
    ∧ cpuid_leaf script_never 0x5 100 = ([], []) :=
  ⟨rfl, rfl⟩

/-- Claim C4 (amended): subleaf enumeration within one leaf terminates
for every query primitive, every leaf and every fuel bound - but only
because the loop guard `subleaf > -1` is always false for the unsigned
counter, so zero iterations happen; no internal-limit-exceeded condition
is ever reported (the trace is empty). -/
theorem claim_C4_amended (q : Nat → Nat → cpuid_result) (leaf fuel : Nat) :
    cpuid_leaf q leaf fuel = ([], []) :=
  cpuid_leaf_no_output q leaf fuel

/-- Claim C3, counterexample to the claim as stated: the leaf override
set to the explicit 32-bit value 0xFFFFFFFF (with the subleaf override
set to 0) collides with the "unset" sentinel of line 142, so the
resolver runs the full dump instead of issuing exactly one
query(0xFFFFFFFF, 0) and emitting its single row: no row is emitted and
the queries issued are the two level-base queries. -/
theorem claim_C3_counterexample :
    (resolver qZero 0xffffffff 0 10 1).rows = []
    ∧ (resolver qZero 0xffffffff 0 10 1).queries
        = [(0, 0), (0x80000000, 0)] :=
  ⟨rfl, rfl⟩

/-- Claim C3 (amended): for every explicit leaf value other than
0xFFFFFFFF and every explicit subleaf value other than 0xFFFFFFFF (the
in-band sentinel that means "unset"), when both overrides are set the
resolver issues exactly one query(leaf, subleaf) and emits exactly its
single row, unconditionally, regardless of the result's content and
bypassing the predicate table; no combination of overrides is an error. -/
theorem claim_C3_amended (q : Nat → Nat → cpuid_result)
    (leaf subleaf fuel lfuel : Nat)
    (hl : leaf ≠ 0xffffffff) (hs : subleaf ≠ 0xffffffff) :
    resolver q leaf subleaf fuel lfuel
      = ⟨[⟨leaf, subleaf, q leaf subleaf⟩], [(leaf, subleaf)], []⟩ := by
  simp [resolver, hl, hs]

/-- Claim C3 witness: the amended statement at leaf 7, subleaf 2, on the
all-zero script - one query, one row, even though the result is all-zero. -/
theorem claim_C3_witness :
    resolver qZero 7 2 1 1 = ⟨[⟨7, 2, ⟨0, 0, 0, 0⟩⟩], [(7, 2)], []⟩ :=
  claim_C3_amended qZero 7 2 1 1 (by decide) (by decide)

/-- Claim C7, counterexample to the claim as stated: with the level base
0x80000000 and a scripted primitive whose base query reports
max_leaf = 0xFFFFFFFF, every value of the wrapping loop counter passes the
bound check, so after stepping through 0x80000000..0xFFFFFFFF the counter
wraps to 0 and the Leaf Enumerator is invoked on leaf 0 - a leaf less
than the base, which the claim says never happens.  (The violating
invocation occurs after 2^31 defined int increments, before the counter
ever reaches INT_MAX.) -/
theorem claim_C7_counterexample :
    0 ∈ (cpuid_level script_ff 0x80000000 2147483649 1).calls
    ∧ 0 < 0x80000000 := by
  constructor
  · have h := cpuid_level_loop_calls_wrap script_ff 1 2147483649
      2147483648 2147483648 (by omega) (by decide)
    have h0 : (2147483648 + 2147483648) % MOD32 = 0 := rfl
    rw [h0] at h
    rw [cpuid_level_calls_def]
    have e1 : (script_ff 0x80000000 0).eax = MOD32 - 1 := rfl
    have e2 : (0x80000000 : Nat) % MOD32 = 2147483648 := rfl
    rw [e1, e2]
    exact h
  · omega

/-- Claim C7 (amended): for every level base below 2^32 and every scripted
primitive whose base query reports max_leaf < 0xFFFFFFFF (with enough
fuel), `cpuid_level` queries (base, 0) exactly once and invokes the Leaf
Enumerator exactly for the leaves base..max_leaf in increasing order -
never above max_leaf and never below base - and when max_leaf < base no
invocation occurs; no rows are produced in any case (the leaf scans print
nothing), and no case is an error.  When max_leaf = 0xFFFFFFFF the loop
counter wraps instead (see the counterexample). -/
theorem claim_C7_amended (q : Nat → Nat → cpuid_result)
    (base fuel lfuel : Nat) (hb : base < 4294967296)
    (hm : (q base 0).eax < 4294967295)
    (hf : (q base 0).eax + 2 - base ≤ fuel) :
    (cpuid_level q base fuel lfuel).calls
      = List.range' base ((q base 0).eax + 1 - base)
    ∧ (cpuid_level q base fuel lfuel).queries = [(base, 0)]
    ∧ (cpuid_level q base fuel lfuel).rows = [] := by
  refine ⟨?_, cpuid_level_queries q base fuel lfuel,
    cpuid_level_rows q base fuel lfuel⟩
  have hM : MOD32 = 4294967296 := rfl
  have hmod : base % MOD32 = base := Nat.mod_eq_of_lt (by omega)
  have h := cpuid_level_loop_calls q (q base 0).eax lfuel (by omega)
    fuel base (by omega) hf
  calc (cpuid_level q base fuel lfuel).calls
      = (cpuid_level_loop q (q base 0).eax lfuel (base % MOD32) fuel).calls :=
        rfl
    _ = List.range' base ((q base 0).eax + 1 - base) := by rw [hmod]; exact h

/-- Claim C7 witness: the amended statement at base 1 on a script
reporting max_leaf = 3: the Leaf Enumerator is invoked exactly on leaves
1, 2, 3, the only query issued is (1, 0), and no rows appear. -/
theorem claim_C7_witness :
    (cpuid_level qThree 1 10 1).calls = List.range' 1 3
    ∧ (cpuid_level qThree 1 10 1).queries = [(1, 0)]
    ∧ (cpuid_level qThree 1 10 1).rows = [] :=
  claim_C7_amended qThree 1 10 1 (by decide) (by decide) (by decide)

/-- Claim C8: for every scripted primitive, `dump_cpuid` is the
concatenation of `cpuid_level 0` followed by `cpuid_level 0x80000000`,
in that fixed order, on all three trace components; and the level-base
queries it issues are exactly (0, 0) then (0x80000000, 0) - those two
constants and no others. -/
theorem claim_C8_dump_is_two_levels (q : Nat → Nat → cpuid_result)
    (fuel lfuel : Nat) :
    (dump_cpuid q fuel lfuel).rows
      = (cpuid_level q 0 fuel lfuel).rows
        ++ (cpuid_level q 0x80000000 fuel lfuel).rows
    ∧ (dump_cpuid q fuel lfuel).queries
      = (cpuid_level q 0 fuel lfuel).queries
        ++ (cpuid_level q 0x80000000 fuel lfuel).queries
    ∧ (dump_cpuid q fuel lfuel).calls
      = (cpuid_level q 0 fuel lfuel).calls
        ++ (cpuid_level q 0x80000000 fuel lfuel).calls
    ∧ (dump_cpuid q fuel lfuel).queries = [(0, 0), (0x80000000, 0)] := by
  refine ⟨rfl, rfl, rfl, ?_⟩
  show (cpuid_level q 0 fuel lfuel).queries
      ++ (cpuid_level q 0x80000000 fuel lfuel).queries = _
  rw [cpuid_level_queries, cpuid_level_queries]
  rfl

/-- Claim C9: in `device_read`, the guard `length < 0` compares two
values of the unsigned type size_t, so it is false for every possible
length argument; the early return of 0 through that guard is dead logic
and `device_read` always takes the switch path. -/
theorem claim_C9_dead_negative_guard (length : Nat) :
    ¬ (length < 0) ∧ device_read length = device_read_body length := by
  refine ⟨Nat.not_lt_zero length, ?_⟩
  simp [device_read]

/-- Claim C10: when the subleaf override is set (to any value other than
the sentinel, or even to the sentinel itself - the value is simply never
read) while the leaf override is unset, the resolver runs the full dump:
its trace equals `dump_cpuid`'s, the single-query mode is not used, and
the queries issued are exactly the two level-base queries, independent of
the subleaf value. -/
theorem claim_C10_subleaf_without_leaf (q : Nat → Nat → cpuid_result)
    (subleaf fuel lfuel : Nat) :
    resolver q 0xffffffff subleaf fuel lfuel = dump_cpuid q fuel lfuel
    ∧ (resolver q 0xffffffff subleaf fuel lfuel).queries
        = [(0, 0), (0x80000000, 0)] := by
  have hr : resolver q 0xffffffff subleaf fuel lfuel
      = dump_cpuid q fuel lfuel := by
    simp [resolver]
  refine ⟨hr, ?_⟩
  rw [hr]
  show (cpuid_level q 0 fuel lfuel).queries
      ++ (cpuid_level q 0x80000000 fuel lfuel).queries = _
  rw [cpuid_level_queries, cpuid_level_queries]
  rfl
